import Mathlib

/-!
Verification of the diff-resolution and prompt/response-formatting logic of a
small git assistant tool (`src/main.py`).  The tool shells out to git to
obtain diffs and forwards them to an external completion service; we embed
the git side as an oracle `GitExec` mapping a command line to
`(stdout, stderr, returncode)`, and the completion service as an oracle
`LLM` mapping `(system message, user prompt, max tokens)` to either a
response text or an error message.  Python string primitives used by the
source (`str.strip`, slicing, `str.replace`) are modelled explicitly.
-/

/-- Whitespace characters removed by Python `str.strip()` (ASCII subset). -/
def isPySpace (c : Char) : Bool :=
  c = ' ' || c = '\t' || c = '\n' || c = '\r' || c = '\x0b' || c = '\x0c'

/-- Python `str.strip()` on a character list: drop whitespace at both ends. -/
def pyStripL (l : List Char) : List Char :=
  ((l.dropWhile isPySpace).reverse.dropWhile isPySpace).reverse

/-- Python `s.strip()`. -/
def pyStrip (s : String) : String := ⟨pyStripL s.data⟩

/-- Python slicing `s[:n]`: the first `n` characters. -/
def pyTake (n : Nat) (s : String) : String := ⟨s.data.take n⟩

/-- Fuel-driven scanner for Python `str.replace`: replaces non-overlapping
occurrences of `pat` left to right.  The fuel is an upper bound on the number
of scanning steps; `pyReplaceL` supplies `s.length`, which always suffices. -/
def pyReplaceAux (pat repl : List Char) : Nat → List Char → List Char
  | _, [] => []
  | 0, l => l
  | Nat.succ fuel, c :: rest =>
    if pat ≠ [] ∧ List.take pat.length (c :: rest) = pat then
      repl ++ pyReplaceAux pat repl fuel (List.drop pat.length (c :: rest))
    else
      c :: pyReplaceAux pat repl fuel rest

/-- Python `str.replace` on character lists (non-empty pattern). -/
def pyReplaceL (pat repl s : List Char) : List Char :=
  pyReplaceAux pat repl s.length s

/-- Python `s.replace(pat, repl)`. -/
def pyReplace (pat repl s : String) : String :=
  ⟨pyReplaceL pat.data repl.data s.data⟩

/-- Oracle for `run_git_command`: maps a command line to
`(stdout, stderr, returncode)`.  The Python wrapper catches exceptions and
turns them into `("", message, 1)`, so every interaction fits this type. -/
structure GitExec where
  run : List String → String × String × Int

/-- `run_git_command` (src/main.py line 31): executes a git command and
returns `(stdout, stderr, returncode)`. -/
def run_git_command (g : GitExec) (command : List String) : String × String × Int :=
  g.run command

/-- `get_current_branch` (line 57): `git branch --show-current`, stripped,
on success; `None` on failure. -/
def get_current_branch (g : GitExec) : Option String :=
  if (run_git_command g ["git", "branch", "--show-current"]).2.2 = 0
  then some (pyStrip (run_git_command g ["git", "branch", "--show-current"]).1)
  else none

/-- `get_staged_diff` (line 155): `git diff --staged`, returned untrimmed
when the exit code is zero and the stripped output is non-empty. -/
def get_staged_diff (g : GitExec) : Option String :=
  if (run_git_command g ["git", "diff", "--staged"]).2.2 = 0
      ∧ pyStrip (run_git_command g ["git", "diff", "--staged"]).1 ≠ ""
  then some (run_git_command g ["git", "diff", "--staged"]).1
  else none

/-- The candidate base branches tried by `get_diff_with_main` (line 97). -/
def base_branches : List String := ["main", "master", "origin/main", "origin/master"]

/-- The loop of `get_diff_with_main` over candidate bases (lines 99-119),
instrumented with the list of git commands issued: each `git diff <base>`
that succeeds with non-blank output is returned; failures and blank outputs
fall through to the next candidate, and after the list is exhausted the
`git diff HEAD~1` fallback is tried. -/
def try_base_branchesT (g : GitExec) : List String → Option String × List (List String)
  | [] =>
    (if (run_git_command g ["git", "diff", "HEAD~1"]).2.2 = 0
        ∧ pyStrip (run_git_command g ["git", "diff", "HEAD~1"]).1 ≠ ""
     then some (run_git_command g ["git", "diff", "HEAD~1"]).1
     else none,
     [["git", "diff", "HEAD~1"]])
  | b :: rest =>
    if (run_git_command g ["git", "diff", b]).2.2 = 0
        ∧ pyStrip (run_git_command g ["git", "diff", b]).1 ≠ ""
    then (some (run_git_command g ["git", "diff", b]).1, [["git", "diff", b]])
    else ((try_base_branchesT g rest).1, ["git", "diff", b] :: (try_base_branchesT g rest).2)

/-- `get_diff_with_main` (lines 75-119), instrumented with the trace of git
commands issued.  A falsy current branch (`None` or `""`) aborts; on
`main`/`master` only the unstaged diff is consulted; otherwise the candidate
loop and `HEAD~1` fallback run. -/
def get_diff_with_mainT (g : GitExec) : Option String × List (List String) :=
  match get_current_branch g with
  | none => (none, [["git", "branch", "--show-current"]])
  | some cb =>
    if cb = "" then (none, [["git", "branch", "--show-current"]])
    else if cb = "main" ∨ cb = "master" then
      (if (run_git_command g ["git", "diff"]).2.2 = 0
          ∧ pyStrip (run_git_command g ["git", "diff"]).1 ≠ ""
       then some (run_git_command g ["git", "diff"]).1
       else none,
       [["git", "branch", "--show-current"], ["git", "diff"]])
    else
      ((try_base_branchesT g base_branches).1,
       ["git", "branch", "--show-current"] :: (try_base_branchesT g base_branches).2)

/-- `get_diff_with_main`, result only. -/
def get_diff_with_main (g : GitExec) : Option String :=
  (get_diff_with_mainT g).1

/-- `get_diff_for_branch_naming` (lines 121-153): on `main`/`master` try the
unstaged diff, then the staged diff; on other branches delegate to
`get_diff_with_main`.  The Python truthiness test on the staged result is
kept (`some ""` would be falsy). -/
def get_diff_for_branch_naming (g : GitExec) : Option String :=
  match get_current_branch g with
  | none => none
  | some cb =>
    if cb = "" then none
    else if cb = "main" ∨ cb = "master" then
      if (run_git_command g ["git", "diff"]).2.2 = 0
          ∧ pyStrip (run_git_command g ["git", "diff"]).1 ≠ ""
      then some (run_git_command g ["git", "diff"]).1
      else
        match get_staged_diff g with
        | some staged => if staged = "" then none else some staged
        | none => none
    else get_diff_with_main g

/-- Oracle for the external completion service: given the system message, the
user prompt and the max-token budget, either return the response text or fail
with an error message (`str(e)` of the raised exception). -/
structure LLM where
  complete : String → String → Nat → Except String String

/-- The fixed notice returned when the diff is too short (lines 182, 232, 295). -/
def shortDiffError : String := "Error: Diff content is too short or empty to analyze."

/-- The guard shared by all three operations (lines 181, 231, 294):
Python `not diff_content or len(diff_content.strip()) < 10`. -/
def diffTooShort (d : String) : Prop := d = "" ∨ (pyStrip d).data.length < 10

instance (d : String) : Decidable (diffTooShort d) := by
  unfold diffTooShort; infer_instance

/-- Literal text of the branch-name prompt before the diff excerpt (lines 184-195). -/
def bPre : String := "\nAnalyze the following Git diff and suggest appropriate branch names.\n\nRules:\n- Use kebab-case (hyphen-separated)\n- Keep names concise and descriptive\n- Properly represent the changes made\n- Follow common Git branch naming conventions\n- Use appropriate prefixes like feature/, fix/, refactor/, docs/, etc.\n\nGit diff:\n```\n"

/-- Literal text of the branch-name prompt after the diff excerpt (lines 196-200). -/
def bPost : String := "...\n```\n\nPlease suggest 3 branch names. List the most appropriate one first.\n"

/-- The branch-name prompt (lines 184-200): fixed text around `diff_content[:2000]`. -/
def branchPrompt (d : String) : String := bPre ++ pyTake 2000 d ++ bPost

/-- System message of the branch-name request (line 206). -/
def branchSystemMsg : String :=
  "You are a Git expert. Analyze code changes and suggest appropriate branch names."

/-- Default PR template (lines 235-253), used when no custom template is given. -/
def defaultTemplate : String := "\n## Summary\n[Brief description of changes]\n\n## Changes Made\n- [Change 1]\n- [Change 2]\n- [Change 3]\n\n## Testing\n- [ ] Unit tests\n- [ ] Integration tests\n- [ ] Manual testing\n\n## Checklist\n- [ ] Code review completed\n- [ ] Documentation updated\n- [ ] Tests added/updated\n"

/-- Literal text of the PR prompt before the template (lines 255-259). -/
def prPre : String := "\nAnalyze the following Git diff and generate a GitHub Pull Request summary.\n\nTemplate:\n"

/-- Literal text of the PR prompt between the template and the diff excerpt (lines 259-262). -/
def prMid : String := "\n\nGit diff:\n```\n"

/-- Literal text of the PR prompt after the diff excerpt (lines 263-268). -/
def prPost : String := "...\n```\n\nFollow the template above and analyze the changes to create an appropriate PR summary.\nInclude technical details to help reviewers understand the changes.\n"

/-- The PR-summary prompt (lines 255-268): fixed text, the template, then
`diff_content[:3000]`. -/
def prPrompt (template d : String) : String :=
  prPre ++ template ++ prMid ++ pyTake 3000 d ++ prPost

/-- System message of the PR-summary request (line 274). -/
def prSystemMsg : String :=
  "You are a software development expert. Analyze Git diffs and create appropriate Pull Request summaries."

/-- Literal text of the commit prompt before the diff excerpt (lines 297-308). -/
def cPre : String := "\nAnalyze the following Git diff and suggest appropriate commit messages.\n\nRules:\n- Use Conventional Commits format (type: description)\n- Keep the first line under 50 characters\n- Add detailed description after blank line if necessary\n- Write in English\n- Type examples: feat, fix, docs, style, refactor, test, chore\n\nGit diff:\n```\n"

/-- Literal text of the commit prompt after the diff excerpt (lines 309-313),
including the four spaces of indentation before the closing quotes. -/
def cPost : String := "...\n```\n\nPlease suggest 3 commit messages. List the most appropriate one first.\n    "

/-- The commit-message prompt (lines 297-313): fixed text around `diff_content[:2000]`. -/
def commitPrompt (d : String) : String := cPre ++ pyTake 2000 d ++ cPost

/-- System message of the commit-message request (line 319). -/
def commitSystemMsg : String :=
  "You are a Git expert. Analyze changes and suggest appropriate commit messages."

/-- The response post-processing of `suggest_commit_message` (lines 326-327):
remove `**`, then `*`. -/
def sanitizeCommit (s : String) : String :=
  pyReplace "*" "" (pyReplace "**" "" s)

/-- The response post-processing of `suggest_branch_name` (lines 212-214):
remove `**`, then `*`, then the backtick. -/
def sanitizeBranch (s : String) : String :=
  pyReplace "`" "" (sanitizeCommit s)

/-- `suggest_branch_name` (lines 171-218).  The second component records
whether the external completion service was invoked. -/
def suggest_branch_name (llm : LLM) (d : String) : String × Bool :=
  if diffTooShort d then (shortDiffError, false)
  else
    match llm.complete branchSystemMsg (branchPrompt d) 300 with
    | Except.ok content => (sanitizeBranch (pyStrip content), true)
    | Except.error e => ("An error occurred: " ++ e, true)

/-- `generate_pr_summary` (lines 220-281).  The template argument is optional
as in the source; the raw response is stripped but not otherwise altered. -/
def generate_pr_summary (llm : LLM) (d : String) (template : Option String) : String × Bool :=
  if diffTooShort d then (shortDiffError, false)
  else
    let tmpl := template.getD defaultTemplate
    match llm.complete prSystemMsg (prPrompt tmpl d) 800 with
    | Except.ok content => (pyStrip content, true)
    | Except.error e => ("An error occurred: " ++ e, true)

/-- `suggest_commit_message` (lines 284-331). -/
def suggest_commit_message (llm : LLM) (d : String) : String × Bool :=
  if diffTooShort d then (shortDiffError, false)
  else
    match llm.complete commitSystemMsg (commitPrompt d) 400 with
    | Except.ok content => (sanitizeCommit (pyStrip content), true)
    | Except.error e => ("An error occurred: " ++ e, true)

lemma mem_pyReplaceAux_nil {pat : List Char} :
    ∀ (fuel : Nat) (l : List Char) (a : Char), a ∈ pyReplaceAux pat [] fuel l → a ∈ l := by
  intro fuel
  induction fuel with
  | zero =>
    intro l a h
    cases l with
    | nil => simpa [pyReplaceAux] using h
    | cons c rest => simpa [pyReplaceAux] using h
  | succ fuel ih =>
    intro l a h
    cases l with
    | nil => simpa [pyReplaceAux] using h
    | cons c rest =>
      rw [pyReplaceAux] at h
      by_cases hc : pat ≠ [] ∧ List.take pat.length (c :: rest) = pat
      · rw [if_pos hc] at h
        simp only [List.nil_append] at h
        exact List.mem_of_mem_drop (ih _ a h)
      · rw [if_neg hc] at h
        rcases List.mem_cons.mp h with h1 | h1
        · exact h1 ▸ List.mem_cons_self c rest
        · exact List.mem_cons_of_mem c (ih _ a h1)

lemma pyReplaceAux_single_removes (c : Char) :
    ∀ (fuel : Nat) (l : List Char), l.length ≤ fuel → c ∉ pyReplaceAux [c] [] fuel l := by
  intro fuel
  induction fuel with
  | zero =>
    intro l hl
    cases l with
    | nil => simp [pyReplaceAux]
    | cons d rest => simp at hl
  | succ fuel ih =>
    intro l hl
    cases l with
    | nil => simp [pyReplaceAux]
    | cons d rest =>
      rw [pyReplaceAux]
      by_cases hd : d = c
      · subst hd
        rw [if_pos (by simp)]
        simp only [List.length_cons, List.drop_one, List.tail_cons, List.nil_append]
        exact ih rest (by simpa using hl)
      · rw [if_neg (by simp [List.take_cons]; intro h; exact hd h)]
        intro hmem
        rcases List.mem_cons.mp hmem with h1 | h1
        · exact hd h1.symm
        · exact ih rest (by simpa using Nat.le_of_succ_le_succ (by simpa using hl)) h1

lemma pyReplaceAux_id_of_head_notMem (c : Char) (pat repl : List Char) :
    ∀ (fuel : Nat) (l : List Char), c ∉ l → pyReplaceAux (c :: pat) repl fuel l = l := by
  intro fuel
  induction fuel with
  | zero =>
    intro l hl
    cases l with
    | nil => simp [pyReplaceAux]
    | cons d rest => simp [pyReplaceAux]
  | succ fuel ih =>
    intro l hl
    cases l with
    | nil => simp [pyReplaceAux]
    | cons d rest =>
      rw [pyReplaceAux]
      rw [if_neg]
      · rw [ih rest (fun h => hl (List.mem_cons_of_mem d h))]
      · rintro ⟨-, htake⟩
        have : d = c := by
          have := congrArg (fun l => l.head?) htake
          simpa [List.take_cons, List.length_cons] using this
        exact hl (this ▸ List.mem_cons_self d rest)

lemma pyReplace_single_notMem (p : String) (c : Char) (hp : p.data = [c]) (t : String) :
    c ∉ (pyReplace p "" t).data := by
  show c ∉ pyReplaceL p.data [] t.data
  rw [hp]
  exact pyReplaceAux_single_removes c t.data.length t.data le_rfl

lemma mem_pyReplace_nil (p t : String) (a : Char) (h : a ∈ (pyReplace p "" t).data) :
    a ∈ t.data :=
  mem_pyReplaceAux_nil t.data.length t.data a h

lemma pyReplace_id_of_head_notMem (p repl : String) (c : Char) (hp : p.data.head? = some c)
    (t : String) (h : c ∉ t.data) : pyReplace p repl t = t := by
  cases t with
  | mk l =>
    show String.mk (pyReplaceL p.data repl.data l) = String.mk l
    cases hpd : p.data with
    | nil => rw [hpd] at hp; simp at hp
    | cons a tail =>
      have ha : a = c := by rw [hpd] at hp; simpa using hp
      subst ha
      rw [hpd] at *
      exact congrArg String.mk (pyReplaceAux_id_of_head_notMem a tail repl.data l.length l h)

lemma star_notMem_sanitizeCommit (s : String) : '*' ∉ (sanitizeCommit s).data :=
  pyReplace_single_notMem "*" '*' rfl (pyReplace "**" "" s)

lemma star_notMem_sanitizeBranch (s : String) : '*' ∉ (sanitizeBranch s).data :=
  fun h => star_notMem_sanitizeCommit s (mem_pyReplace_nil "`" (sanitizeCommit s) '*' h)

lemma backquote_notMem_sanitizeBranch (s : String) :
    Char.ofNat 96 ∉ (sanitizeBranch s).data :=
  pyReplace_single_notMem "`" (Char.ofNat 96) (by decide) (sanitizeCommit s)

lemma sanitizeCommit_of_star_notMem (s : String) (h : '*' ∉ s.data) : sanitizeCommit s = s := by
  unfold sanitizeCommit
  rw [pyReplace_id_of_head_notMem "**" "" '*' rfl s h,
      pyReplace_id_of_head_notMem "*" "" '*' rfl s h]

/-- The text of `bPost` after its leading ellipsis. -/
def bTail : String := "\n```\n\nPlease suggest 3 branch names. List the most appropriate one first.\n"

/-- The text of `prPost` after its leading ellipsis. -/
def prTail : String := "\n```\n\nFollow the template above and analyze the changes to create an appropriate PR summary.\nInclude technical details to help reviewers understand the changes.\n"

/-- The text of `cPost` after its leading ellipsis. -/
def cTail : String := "\n```\n\nPlease suggest 3 commit messages. List the most appropriate one first.\n    "

/-- A completion oracle that always answers with emphasis-marked text. -/
def llmStars : LLM := ⟨fun _ _ _ => Except.ok "**pr summary**"⟩

/-- A completion oracle that always answers with padded, emphasis-marked text. -/
def llmOk : LLM := ⟨fun _ _ _ => Except.ok " **fix: login bug** `x` "⟩

/-- A completion oracle that always fails. -/
def llmErr : LLM := ⟨fun _ _ _ => Except.error "boom"⟩

/-- A diff long enough to pass the ten-character guard. -/
def longDiff : String := "diff --git a/f b/f"

/-- C4: a diff whose trimmed length is below ten characters makes all three
formatter operations return the fixed notice without invoking the external
completion service. -/
theorem C4_short_diff_skips_call (llm : LLM) (d : String)
    (h : (pyStrip d).data.length < 10) :
    suggest_branch_name llm d = (shortDiffError, false) ∧
    (∀ t, generate_pr_summary llm d t = (shortDiffError, false)) ∧
    suggest_commit_message llm d = (shortDiffError, false) := by
  have hts : diffTooShort d := Or.inr h
  refine ⟨?_, fun t => ?_, ?_⟩
  · rw [suggest_branch_name, if_pos hts]
  · rw [generate_pr_summary, if_pos hts]
  · rw [suggest_commit_message, if_pos hts]

/-- Witness for C4 at the concrete three-character diff `"abc"`. -/
theorem C4_witness :
    (pyStrip "abc").data.length < 10 ∧
    suggest_branch_name llmOk "abc" = (shortDiffError, false) ∧
    generate_pr_summary llmOk "abc" none = (shortDiffError, false) ∧
    suggest_commit_message llmOk "abc" = (shortDiffError, false) :=
  ⟨by decide, (C4_short_diff_skips_call llmOk "abc" (by decide)).1,
   (C4_short_diff_skips_call llmOk "abc" (by decide)).2.1 none,
   (C4_short_diff_skips_call llmOk "abc" (by decide)).2.2⟩

/-- C6: an error from the completion service is caught by each operation and
turned into the string `An error occurred: {message}`; the operation still
returns normally (the call flag is set, no exception escapes). -/
theorem C6_errors_caught (llm : LLM) (d msg : String) (hd : ¬ diffTooShort d) :
    (llm.complete branchSystemMsg (branchPrompt d) 300 = Except.error msg →
       suggest_branch_name llm d = ("An error occurred: " ++ msg, true)) ∧
    (∀ t, llm.complete prSystemMsg (prPrompt (t.getD defaultTemplate) d) 800 = Except.error msg →
       generate_pr_summary llm d t = ("An error occurred: " ++ msg, true)) ∧
    (llm.complete commitSystemMsg (commitPrompt d) 400 = Except.error msg →
       suggest_commit_message llm d = ("An error occurred: " ++ msg, true)) := by
  refine ⟨fun h => ?_, fun t h => ?_, fun h => ?_⟩
  · rw [suggest_branch_name, if_neg hd, h]
  · rw [generate_pr_summary, if_neg hd]
    simp only [h]
  · rw [suggest_commit_message, if_neg hd, h]

/-- Witness for C6 with the always-failing oracle and a concrete diff. -/
theorem C6_witness :
    suggest_branch_name llmErr longDiff = ("An error occurred: " ++ "boom", true) ∧
    generate_pr_summary llmErr longDiff none = ("An error occurred: " ++ "boom", true) ∧
    suggest_commit_message llmErr longDiff = ("An error occurred: " ++ "boom", true) :=
  ⟨(C6_errors_caught llmErr longDiff "boom" (by decide)).1 rfl,
   (C6_errors_caught llmErr longDiff "boom" (by decide)).2.1 none rfl,
   (C6_errors_caught llmErr longDiff "boom" (by decide)).2.2 rfl⟩

/-- C7: each prompt embeds exactly the first 2000 (branch, commit) or 3000
(PR) characters of the diff, followed immediately by a literal ellipsis; and
when the diff is within the limit the excerpt is the whole diff, with the
ellipsis still appended. -/
theorem C7_prompt_truncation (t d : String) :
    branchPrompt d = (bPre ++ pyTake 2000 d) ++ ("..." ++ bTail) ∧
    prPrompt t d = (prPre ++ t ++ prMid ++ pyTake 3000 d) ++ ("..." ++ prTail) ∧
    commitPrompt d = (cPre ++ pyTake 2000 d) ++ ("..." ++ cTail) ∧
    (d.data.length ≤ 2000 → pyTake 2000 d = d) ∧
    (d.data.length ≤ 3000 → pyTake 3000 d = d) := by
  refine ⟨?_, ?_, ?_, fun h => ?_, fun h => ?_⟩
  · rw [branchPrompt, show ("..." ++ bTail : String) = bPost from rfl]
  · rw [prPrompt, show ("..." ++ prTail : String) = prPost from rfl]
  · rw [commitPrompt, show ("..." ++ cTail : String) = cPost from rfl]
  · cases d with
    | mk l => exact congrArg String.mk (List.take_of_length_le h)
  · cases d with
    | mk l => exact congrArg String.mk (List.take_of_length_le h)

/-- Witness for C7 at the twelve-character diff `"hello world!"`: the branch
prompt embeds the whole diff and still appends the ellipsis. -/
theorem C7_witness :
    branchPrompt "hello world!" = (bPre ++ pyTake 2000 "hello world!") ++ ("..." ++ bTail) ∧
    pyTake 2000 "hello world!" = "hello world!" :=
  ⟨(C7_prompt_truncation defaultTemplate "hello world!").1,
   (C7_prompt_truncation defaultTemplate "hello world!").2.2.2.1 (by decide)⟩

/-- C8: the response sanitization applied by the branch-name operation
(remove `**`, then `*`, then the backtick) and by the commit-message
operation (remove `**`, then `*`) are both idempotent. -/
theorem C8_sanitization_idempotent (s : String) :
    sanitizeBranch (sanitizeBranch s) = sanitizeBranch s ∧
    sanitizeCommit (sanitizeCommit s) = sanitizeCommit s := by
  constructor
  · have h1 : sanitizeBranch (sanitizeBranch s)
        = pyReplace "`" "" (sanitizeCommit (sanitizeBranch s)) := rfl
    rw [h1, sanitizeCommit_of_star_notMem _ (star_notMem_sanitizeBranch s)]
    exact pyReplace_id_of_head_notMem "`" "" (Char.ofNat 96) (by decide) _
      (backquote_notMem_sanitizeBranch s)
  · exact sanitizeCommit_of_star_notMem _ (star_notMem_sanitizeCommit s)

/-- C5 counterexample: with a completion oracle answering `**pr summary**`,
the PR-summary operation returns the emphasis markers verbatim — removing
`**` would change the result, so the response is not sanitized. -/
theorem C5_counterexample :
    (generate_pr_summary llmStars longDiff none).1 = "**pr summary**" ∧
    pyReplace "**" "" "**pr summary**" ≠ "**pr summary**" := by
  exact ⟨rfl, by decide⟩

/-- C5 amended: branch-name and commit-message suggestions sanitize the
trimmed response (every occurrence of `**` and `*`, and for branch
suggestions the backtick, is removed, so removing them again changes
nothing), while the PR-summary operation returns the trimmed response
without any emphasis-marker removal. -/
theorem C5_sanitization_amended (llm : LLM) (d c1 c2 c3 : String)
    (hd : ¬ diffTooShort d)
    (h1 : llm.complete branchSystemMsg (branchPrompt d) 300 = Except.ok c1)
    (h2 : llm.complete prSystemMsg (prPrompt defaultTemplate d) 800 = Except.ok c2)
    (h3 : llm.complete commitSystemMsg (commitPrompt d) 400 = Except.ok c3) :
    suggest_branch_name llm d = (sanitizeBranch (pyStrip c1), true) ∧
    pyReplace "**" "" (suggest_branch_name llm d).1 = (suggest_branch_name llm d).1 ∧
    pyReplace "*" "" (suggest_branch_name llm d).1 = (suggest_branch_name llm d).1 ∧
    pyReplace "`" "" (suggest_branch_name llm d).1 = (suggest_branch_name llm d).1 ∧
    generate_pr_summary llm d none = (pyStrip c2, true) ∧
    suggest_commit_message llm d = (sanitizeCommit (pyStrip c3), true) ∧
    pyReplace "**" "" (suggest_commit_message llm d).1 = (suggest_commit_message llm d).1 ∧
    pyReplace "*" "" (suggest_commit_message llm d).1 = (suggest_commit_message llm d).1 := by
  have hb : suggest_branch_name llm d = (sanitizeBranch (pyStrip c1), true) := by
    rw [suggest_branch_name, if_neg hd, h1]
  have hp : generate_pr_summary llm d none = (pyStrip c2, true) := by
    rw [generate_pr_summary, if_neg hd]
    simp only [Option.getD_none, h2]
  have hc : suggest_commit_message llm d = (sanitizeCommit (pyStrip c3), true) := by
    rw [suggest_commit_message, if_neg hd, h3]
  refine ⟨hb, ?_, ?_, ?_, hp, hc, ?_, ?_⟩
  · rw [hb]
    exact pyReplace_id_of_head_notMem "**" "" '*' rfl _ (star_notMem_sanitizeBranch _)
  · rw [hb]
    exact pyReplace_id_of_head_notMem "*" "" '*' rfl _ (star_notMem_sanitizeBranch _)
  · rw [hb]
    exact pyReplace_id_of_head_notMem "`" "" (Char.ofNat 96) (by decide) _
      (backquote_notMem_sanitizeBranch _)
  · rw [hc]
    exact pyReplace_id_of_head_notMem "**" "" '*' rfl _ (star_notMem_sanitizeCommit _)
  · rw [hc]
    exact pyReplace_id_of_head_notMem "*" "" '*' rfl _ (star_notMem_sanitizeCommit _)

/-- Witness for the amended C5 with a concrete oracle and diff. -/
theorem C5_witness :
    suggest_branch_name llmOk longDiff
      = (sanitizeBranch (pyStrip " **fix: login bug** `x` "), true) ∧
    generate_pr_summary llmOk longDiff none = (pyStrip " **fix: login bug** `x` ", true) ∧
    suggest_commit_message llmOk longDiff
      = (sanitizeCommit (pyStrip " **fix: login bug** `x` "), true) :=
  ⟨(C5_sanitization_amended llmOk longDiff _ _ _ (by decide) rfl rfl rfl).1,
   (C5_sanitization_amended llmOk longDiff _ _ _ (by decide) rfl rfl rfl).2.2.2.2.1,
   (C5_sanitization_amended llmOk longDiff _ _ _ (by decide) rfl rfl rfl).2.2.2.2.2.1⟩

/-- Modelled from the spec: the diff obtained from a single `git diff <ref>`
query — returned when the command succeeds and its output is non-empty after
trimming, absent otherwise (a failing candidate is skipped, not fatal). -/
def refDiff (g : GitExec) (ref : String) : Option String :=
  if (run_git_command g ["git", "diff", ref]).2.2 = 0
      ∧ pyStrip (run_git_command g ["git", "diff", ref]).1 ≠ ""
  then some (run_git_command g ["git", "diff", ref]).1
  else none

/-- Modelled from the spec: try the fixed ordered candidate list and return
the first non-empty diff; when all candidates fail or are empty, fall back to
the diff against the previous revision. -/
def specCandidateResolution (g : GitExec) : Option String :=
  (base_branches.findSome? (refDiff g)).orElse (fun _ => refDiff g "HEAD~1")

/-- Modelled from the spec: the diff of uncommitted (unstaged) changes, when
the query succeeds with output that is non-empty after trimming. -/
def uncommittedDiff (g : GitExec) : Option String :=
  if (run_git_command g ["git", "diff"]).2.2 = 0
      ∧ pyStrip (run_git_command g ["git", "diff"]).1 ≠ ""
  then some (run_git_command g ["git", "diff"]).1
  else none

lemma try_base_branchesT_fst (g : GitExec) :
    ∀ l : List String, (try_base_branchesT g l).1
      = (l.findSome? (refDiff g)).orElse (fun _ => refDiff g "HEAD~1") := by
  intro l
  induction l with
  | nil => rfl
  | cons b rest ih =>
    by_cases hc : (run_git_command g ["git", "diff", b]).2.2 = 0
        ∧ pyStrip (run_git_command g ["git", "diff", b]).1 ≠ ""
    · have hrb : refDiff g b = some (run_git_command g ["git", "diff", b]).1 := by
        rw [refDiff, if_pos hc]
      simp only [try_base_branchesT]
      rw [if_pos hc, List.findSome?_cons, hrb]
      rfl
    · have hrb : refDiff g b = none := by
        rw [refDiff, if_neg hc]
      simp only [try_base_branchesT]
      rw [if_neg hc, List.findSome?_cons, hrb]
      exact ih

lemma pyStrip_ne_empty {s : String} (h : pyStrip s ≠ "") : s ≠ "" := by
  intro he
  subst he
  exact h rfl

lemma get_staged_diff_ne_empty {g : GitExec} {s : String}
    (h : get_staged_diff g = some s) : s ≠ "" := by
  unfold get_staged_diff at h
  by_cases hc : (run_git_command g ["git", "diff", "--staged"]).2.2 = 0
      ∧ pyStrip (run_git_command g ["git", "diff", "--staged"]).1 ≠ ""
  · rw [if_pos hc] at h
    cases h
    exact pyStrip_ne_empty hc.2
  · rw [if_neg hc] at h
    cases h

/-- C1: on a determinable branch other than `main`/`master`,
`get_diff_with_main` is exactly the spec's candidate resolution: the first
non-empty diff among `main`, `master`, `origin/main`, `origin/master` in
order (failing candidates are skipped), with the `HEAD~1` diff as fallback
and `none` when everything fails or is empty. -/
theorem C1_candidate_order (g : GitExec) (b : String)
    (hb : get_current_branch g = some b) (h0 : b ≠ "")
    (h1 : b ≠ "main") (h2 : b ≠ "master") :
    get_diff_with_main g = specCandidateResolution g := by
  have hor : ¬ (b = "main" ∨ b = "master") := by
    rintro (h | h)
    · exact h1 h
    · exact h2 h
  show (get_diff_with_mainT g).1 = _
  simp only [get_diff_with_mainT, hb]
  rw [if_neg h0, if_neg hor]
  exact try_base_branchesT_fst g base_branches

/-- C2: on a determinable branch, branch-naming resolution returns the
unstaged diff, else the staged diff, else none when on `main`/`master`, and
coincides with `get_diff_with_main` on every other branch. -/
theorem C2_branch_naming_resolution (g : GitExec) (b : String)
    (hb : get_current_branch g = some b) (h0 : b ≠ "") :
    ((b = "main" ∨ b = "master") →
       get_diff_for_branch_naming g
         = (uncommittedDiff g).orElse (fun _ => get_staged_diff g)) ∧
    (b ≠ "main" → b ≠ "master" →
       get_diff_for_branch_naming g = get_diff_with_main g) := by
  constructor
  · intro hm
    simp only [get_diff_for_branch_naming, hb]
    rw [if_neg h0, if_pos hm]
    by_cases hc : (run_git_command g ["git", "diff"]).2.2 = 0
        ∧ pyStrip (run_git_command g ["git", "diff"]).1 ≠ ""
    · rw [if_pos hc, uncommittedDiff, if_pos hc]
      rfl
    · rw [if_neg hc, uncommittedDiff, if_neg hc]
      show _ = get_staged_diff g
      cases hs : get_staged_diff g with
      | none => rfl
      | some s =>
        show (if s = "" then none else some s) = some s
        rw [if_neg (get_staged_diff_ne_empty hs)]
  · intro h1 h2
    have hor : ¬ (b = "main" ∨ b = "master") := by
      rintro (h | h)
      · exact h1 h
      · exact h2 h
    simp only [get_diff_for_branch_naming, hb]
    rw [if_neg h0, if_neg hor]

/-- C3: on `main`/`master`, `get_diff_with_main` returns the uncommitted
(unstaged) diff when it is non-empty after trimming and `none` otherwise, and
the only git commands it issues are the branch query and the unstaged diff
query — no base-branch candidate and no `HEAD~1` fallback is tried. -/
theorem C3_trunk_unstaged_only (g : GitExec) (b : String)
    (hb : get_current_branch g = some b) (hm : b = "main" ∨ b = "master") :
    get_diff_with_main g = uncommittedDiff g ∧
    (get_diff_with_mainT g).2 = [["git", "branch", "--show-current"], ["git", "diff"]] := by
  have h0 : b ≠ "" := by
    rcases hm with h | h <;> subst h <;> decide
  constructor
  · show (get_diff_with_mainT g).1 = _
    simp only [get_diff_with_mainT, hb]
    rw [if_neg h0, if_pos hm, uncommittedDiff]
  · simp only [get_diff_with_mainT, hb]
    rw [if_neg h0, if_pos hm]

/-- C9: when the branch query fails, both resolvers return `none` (no
exception is modelled — the functions are total); a failing candidate diff
merely moves the loop to the next candidate; and on `main`/`master` a failing
unstaged-diff query merely moves branch-naming resolution on to the staged
diff. -/
theorem C9_failures_nonfatal (g : GitExec) :
    ((run_git_command g ["git", "branch", "--show-current"]).2.2 ≠ 0 →
       get_diff_with_main g = none ∧ get_diff_for_branch_naming g = none) ∧
    (∀ b rest, (run_git_command g ["git", "diff", b]).2.2 ≠ 0 →
       (try_base_branchesT g (b :: rest)).1 = (try_base_branchesT g rest).1) ∧
    (∀ b, get_current_branch g = some b → (b = "main" ∨ b = "master") →
       (run_git_command g ["git", "diff"]).2.2 ≠ 0 →
       get_diff_for_branch_naming g = get_staged_diff g) := by
  refine ⟨fun h => ?_, fun b rest h => ?_, fun b hb hm h => ?_⟩
  · have hcb : get_current_branch g = none := by
      rw [get_current_branch, if_neg h]
    constructor
    · show (get_diff_with_mainT g).1 = none
      simp only [get_diff_with_mainT, hcb]
    · simp only [get_diff_for_branch_naming, hcb]
  · have hcond : ¬((run_git_command g ["git", "diff", b]).2.2 = 0
        ∧ pyStrip (run_git_command g ["git", "diff", b]).1 ≠ "") := fun hc => h hc.1
    simp only [try_base_branchesT]
    rw [if_neg hcond]
  · have h0 : b ≠ "" := by
      rcases hm with hh | hh <;> subst hh <;> decide
    have hcond : ¬((run_git_command g ["git", "diff"]).2.2 = 0
        ∧ pyStrip (run_git_command g ["git", "diff"]).1 ≠ "") := fun hc => h hc.1
    simp only [get_diff_for_branch_naming, hb]
    rw [if_neg h0, if_pos hm, if_neg hcond]
    cases hs : get_staged_diff g with
    | none => rfl
    | some s =>
      show (if s = "" then none else some s) = some s
      rw [if_neg (get_staged_diff_ne_empty hs)]

lemma get_staged_diff_nonblank {g : GitExec} {s : String}
    (h : get_staged_diff g = some s) : pyStrip s ≠ "" := by
  unfold get_staged_diff at h
  by_cases hc : (run_git_command g ["git", "diff", "--staged"]).2.2 = 0
      ∧ pyStrip (run_git_command g ["git", "diff", "--staged"]).1 ≠ ""
  · rw [if_pos hc] at h
    cases h
    exact hc.2
  · rw [if_neg hc] at h
    cases h

lemma try_base_branchesT_nonblank {g : GitExec} :
    ∀ (l : List String) (d : String), (try_base_branchesT g l).1 = some d → pyStrip d ≠ "" := by
  intro l
  induction l with
  | nil =>
    intro d h
    have h2 : (if (run_git_command g ["git", "diff", "HEAD~1"]).2.2 = 0
        ∧ pyStrip (run_git_command g ["git", "diff", "HEAD~1"]).1 ≠ ""
        then some (run_git_command g ["git", "diff", "HEAD~1"]).1 else none) = some d := h
    by_cases hc : (run_git_command g ["git", "diff", "HEAD~1"]).2.2 = 0
        ∧ pyStrip (run_git_command g ["git", "diff", "HEAD~1"]).1 ≠ ""
    · rw [if_pos hc] at h2
      cases h2
      exact hc.2
    · rw [if_neg hc] at h2
      cases h2
  | cons b rest ih =>
    intro d h
    by_cases hc : (run_git_command g ["git", "diff", b]).2.2 = 0
        ∧ pyStrip (run_git_command g ["git", "diff", b]).1 ≠ ""
    · have h2 : some (run_git_command g ["git", "diff", b]).1 = some d := by
        have h3 := h
        simp only [try_base_branchesT] at h3
        rw [if_pos hc] at h3
        exact h3
      cases h2
      exact hc.2
    · have h2 : (try_base_branchesT g rest).1 = some d := by
        have h3 := h
        simp only [try_base_branchesT] at h3
        rw [if_neg hc] at h3
        exact h3
      exact ih d h2

/-- C10: every diff any resolver reports as found is non-empty after
trimming whitespace — a blank command output is never returned. -/
theorem C10_found_diff_nonblank (g : GitExec) (d : String) :
    (get_diff_with_main g = some d → pyStrip d ≠ "") ∧
    (get_diff_for_branch_naming g = some d → pyStrip d ≠ "") ∧
    (get_staged_diff g = some d → pyStrip d ≠ "") := by
  have hmain : get_diff_with_main g = some d → pyStrip d ≠ "" := by
    intro h
    rw [get_diff_with_main] at h
    cases hcb : get_current_branch g with
    | none =>
      simp only [get_diff_with_mainT, hcb] at h
      exact absurd h (by simp)
    | some cb =>
      simp only [get_diff_with_mainT, hcb] at h
      by_cases h0 : cb = ""
      · rw [if_pos h0] at h
        exact absurd h (by simp)
      · rw [if_neg h0] at h
        by_cases hm : cb = "main" ∨ cb = "master"
        · rw [if_pos hm] at h
          have h2 : (if (run_git_command g ["git", "diff"]).2.2 = 0
              ∧ pyStrip (run_git_command g ["git", "diff"]).1 ≠ ""
              then some (run_git_command g ["git", "diff"]).1 else none) = some d := h
          by_cases hc : (run_git_command g ["git", "diff"]).2.2 = 0
              ∧ pyStrip (run_git_command g ["git", "diff"]).1 ≠ ""
          · rw [if_pos hc] at h2
            cases h2
            exact hc.2
          · rw [if_neg hc] at h2
            cases h2
        · rw [if_neg hm] at h
          have h2 : (try_base_branchesT g base_branches).1 = some d := h
          exact try_base_branchesT_nonblank base_branches d h2
  refine ⟨hmain, ?_, fun h => get_staged_diff_nonblank h⟩
  intro h
  cases hcb : get_current_branch g with
  | none =>
    simp only [get_diff_for_branch_naming, hcb] at h
    exact absurd h (by simp)
  | some cb =>
    simp only [get_diff_for_branch_naming, hcb] at h
    by_cases h0 : cb = ""
    · rw [if_pos h0] at h
      exact absurd h (by simp)
    · rw [if_neg h0] at h
      by_cases hm : cb = "main" ∨ cb = "master"
      · rw [if_pos hm] at h
        by_cases hc : (run_git_command g ["git", "diff"]).2.2 = 0
            ∧ pyStrip (run_git_command g ["git", "diff"]).1 ≠ ""
        · rw [if_pos hc] at h
          cases h
          exact hc.2
        · rw [if_neg hc] at h
          cases hs : get_staged_diff g with
          | none =>
            rw [hs] at h
            exact absurd h (by simp)
          | some s =>
            rw [hs] at h
            have h2 : (if s = "" then none else some s) = some d := h
            by_cases hse : s = ""
            · rw [if_pos hse] at h2
              cases h2
            · rw [if_neg hse] at h2
              cases h2
              exact get_staged_diff_nonblank hs
      · rw [if_neg hm] at h
        exact hmain h

/-- A repository on `main` with uncommitted changes and nothing staged. -/
def gMainRepo : GitExec := ⟨fun cmd =>
  if cmd = ["git", "branch", "--show-current"] then ("main\n", "", 0)
  else if cmd = ["git", "diff"] then ("diff --git a/f b/f\n+new line\n", "", 0)
  else if cmd = ["git", "diff", "--staged"] then ("", "", 0)
  else ("", "fatal: unknown", 128)⟩

/-- A repository on a feature branch: `main` is absent, `master` has a blank
diff, and `origin/main` has a real diff. -/
def gFeatureRepo : GitExec := ⟨fun cmd =>
  if cmd = ["git", "branch", "--show-current"] then ("feature/login\n", "", 0)
  else if cmd = ["git", "diff", "main"] then ("", "fatal: bad revision", 128)
  else if cmd = ["git", "diff", "master"] then ("  \n", "", 0)
  else if cmd = ["git", "diff", "origin/main"] then ("diff --git a/a b/a\n+x\n", "", 0)
  else ("", "", 1)⟩

/-- Not a git repository: every command fails. -/
def gBroken : GitExec := ⟨fun _ => ("", "fatal: not a git repository", 128)⟩

/-- On `main`, the unstaged-diff query fails but staged changes exist. -/
def gMainDiffFails : GitExec := ⟨fun cmd =>
  if cmd = ["git", "branch", "--show-current"] then ("main\n", "", 0)
  else if cmd = ["git", "diff"] then ("", "error", 1)
  else if cmd = ["git", "diff", "--staged"] then ("diff --git a/s b/s\n+y\n", "", 0)
  else ("", "", 1)⟩

/-- Witness for C1 on the concrete feature-branch repository. -/
theorem C1_witness :
    get_current_branch gFeatureRepo = some "feature/login" ∧
    get_diff_with_main gFeatureRepo = specCandidateResolution gFeatureRepo :=
  ⟨by decide,
   C1_candidate_order gFeatureRepo "feature/login" (by decide) (by decide) (by decide) (by decide)⟩

/-- Witness for C2: the trunk case on `gMainRepo` and the delegation case on
`gFeatureRepo`. -/
theorem C2_witness :
    get_diff_for_branch_naming gMainRepo
      = (uncommittedDiff gMainRepo).orElse (fun _ => get_staged_diff gMainRepo) ∧
    get_diff_for_branch_naming gFeatureRepo = get_diff_with_main gFeatureRepo :=
  ⟨(C2_branch_naming_resolution gMainRepo "main" (by decide) (by decide)).1 (Or.inl rfl),
   (C2_branch_naming_resolution gFeatureRepo "feature/login" (by decide) (by decide)).2
     (by decide) (by decide)⟩

/-- Witness for C3 on the concrete trunk repository. -/
theorem C3_witness :
    get_diff_with_main gMainRepo = uncommittedDiff gMainRepo ∧
    (get_diff_with_mainT gMainRepo).2
      = [["git", "branch", "--show-current"], ["git", "diff"]] :=
  C3_trunk_unstaged_only gMainRepo "main" (by decide) (Or.inl rfl)

/-- Witness for C9: a failing branch query yields `none` from both
resolvers; a failing candidate is skipped; a failing unstaged query on
`main` moves resolution on to the staged diff. -/
theorem C9_witness :
    (get_diff_with_main gBroken = none ∧ get_diff_for_branch_naming gBroken = none) ∧
    (try_base_branchesT gBroken ["main"]).1 = (try_base_branchesT gBroken []).1 ∧
    get_diff_for_branch_naming gMainDiffFails = get_staged_diff gMainDiffFails :=
  ⟨(C9_failures_nonfatal gBroken).1 (by decide),
   (C9_failures_nonfatal gBroken).2.1 "main" [] (by decide),
   (C9_failures_nonfatal gMainDiffFails).2.2 "main" (by decide) (Or.inl rfl) (by decide)⟩

/-- Witness for C10: the diff found on the feature-branch repository is
non-empty after trimming. -/
theorem C10_witness :
    pyStrip "diff --git a/a b/a\n+x\n" ≠ "" :=
  (C10_found_diff_nonblank gFeatureRepo "diff --git a/a b/a\n+x\n").1 (by decide)
